import Mathlib

/-!
Verification of the NimBLE characteristic value-management and
notify/indicate dispatch engine (`src/NimBLECharacteristic.cpp`).

The C++ source is shallowly embedded: machine integers become `Nat` with
explicit `% 2^w` where truncation matters, byte buffers become `List Nat`,
the mbuf fragment chain becomes a list of fragments, and the per-connection
transport results (MTU lookup, send return codes, semaphore wait results)
become oracle functions in an environment record.
-/

namespace NimBLEChar

/-! ### Protocol and host constants

`BLE_ATT_ATTR_MAX_LEN`, the `BLE_ATT_ERR_*` results and the `BLE_HS_*`
return codes come from the NimBLE host headers (external collaborators of
this repository); their numeric values are the standard NimBLE ones. -/

def BLE_ATT_ATTR_MAX_LEN : Nat := 512

def BLE_ATT_ERR_INVALID_ATTR_VALUE_LEN : Nat := 13

def BLE_ATT_ERR_UNLIKELY : Nat := 14

def BLE_ATT_ERR_INSUFFICIENT_RES : Nat := 17

def BLE_HS_ETIMEOUT : Nat := 13

def BLE_HS_EDONE : Nat := 14

/-- Subscription flag bits stored in the 2902 descriptor's table
(`NIMBLE_DESC_FLAG_NOTIFY`), standard CCCD bit values. -/
def NIMBLE_DESC_FLAG_NOTIFY : Nat := 1

/-- Subscription flag bit for indications (`NIMBLE_DESC_FLAG_INDICATE`). -/
def NIMBLE_DESC_FLAG_INDICATE : Nat := 2

/-- GATT characteristic property bit `BLE_GATT_CHR_F_NOTIFY`. -/
def BLE_GATT_CHR_F_NOTIFY : Nat := 16

/-- GATT characteristic property bit `BLE_GATT_CHR_F_INDICATE`;
`NIMBLE_PROPERTY::INDICATE` has the same value. -/
def BLE_GATT_CHR_F_INDICATE : Nat := 32

/-- Status values reported through `NimBLECharacteristicCallbacks::onStatus`
and passed to the confirmation semaphore (enum declared in the
characteristic header). -/
inductive Status where
  | SUCCESS_INDICATE
  | SUCCESS_NOTIFY
  | ERROR_INDICATE_DISABLED
  | ERROR_NOTIFY_DISABLED
  | ERROR_GATT
  | ERROR_NO_CLIENT
  | ERROR_INDICATE_TIMEOUT
  | ERROR_INDICATE_FAILURE
deriving DecidableEq, Repr

/-- Modelled from the spec: the integer value the source passes to the
confirmation gate for the `ERROR_INDICATE_DISABLED` status (the enum value
of that constant in the characteristic header, which is not under `src/`);
what the claims use is only that it is a nonzero signal distinct from the
success signal `0`. -/
def ERROR_INDICATE_DISABLED_val : Nat := 2

/-! ### ValueBuffer

Modelled from the spec: the `m_value` object's class (spec §4.1
"ValueBuffer") is declared in a header that is not under `src/`. Per the
spec, `addPart` appends to a pending accumulator, `commit` atomically
replaces the committed value with the accumulator's contents and clears
the accumulator, and `setValue` directly replaces the committed value. -/

structure ValueBuffer where
  committed : List Nat
  pending : List Nat
deriving DecidableEq, Repr

/-- Modelled from the spec: `addPart(bytes)` appends `bytes` to the pending
accumulator; no length limit is enforced here. -/
def ValueBuffer.addPart (v : ValueBuffer) (bytes : List Nat) : ValueBuffer :=
  { v with pending := v.pending ++ bytes }

/-- Modelled from the spec: `commit()` replaces the committed value with the
accumulator's contents and clears the accumulator. -/
def ValueBuffer.commit (v : ValueBuffer) : ValueBuffer :=
  ⟨v.pending, []⟩

/-- Modelled from the spec: the inner `m_value.setValue(data, length)`
directly replaces the committed value, bypassing accumulation. -/
def ValueBuffer.rawSetValue (v : ValueBuffer) (data : List Nat) : ValueBuffer :=
  { v with committed := data }

/-- `NimBLECharacteristic::setValue(data, length)` (source lines 432-445):
if `length > BLE_ATT_ATTR_MAX_LEN` it only logs and returns, leaving the
value untouched; otherwise it calls `m_value.setValue(data, length)`. -/
def setValue (v : ValueBuffer) (data : List Nat) : ValueBuffer :=
  if BLE_ATT_ATTR_MAX_LEN < data.length then v
  else v.rawSetValue data

/-! ### AccessDispatcher, WRITE arm

`NimBLECharacteristic::handleGapEvent`, `BLE_GATT_ACCESS_OP_WRITE_CHR` case
(source lines 219-237). The mbuf chain is embedded as the head fragment
`ctxt->om` plus the list of fragments reached through `SLIST_NEXT`. Only the
head fragment's length is compared against `BLE_ATT_ATTR_MAX_LEN`; the
`while` loop appends every further fragment unchecked, then the value is
committed and `onWrite` fires. -/

structure WriteResult where
  rc : Nat
  buf : ValueBuffer
  onWriteFired : Bool
deriving DecidableEq, Repr

def handleWriteChr (v : ValueBuffer) (head : List Nat) (rest : List (List Nat)) :
    WriteResult :=
  if BLE_ATT_ATTR_MAX_LEN < head.length then
    ⟨BLE_ATT_ERR_INVALID_ATTR_VALUE_LEN, v, false⟩
  else
    let v1 := v.addPart head
    let v2 := rest.foldl ValueBuffer.addPart v1
    ⟨0, v2.commit, true⟩

/-! ### SubscriptionTable

Entries of `NimBLE2902::m_subscribedVec` (`chr_sub_status_t`). The update
logic is from `NimBLECharacteristic::setSubscribe` (source lines 281-302):
find the first entry whose `conn_id` matches; if `subVal > 0` update it in
place, or append a new entry when absent; if `subVal == 0` erase the found
entry, or do nothing when absent. The recursions below walk the vector to
the first match exactly as the source's iterator loop does. -/

structure chr_sub_status_t where
  conn_id : Nat
  sub_val : Nat
deriving DecidableEq, Repr

/-- The `subVal > 0` branch of `setSubscribe`: replace the `sub_val` of the
first entry matching `conn` (in place), or append `⟨conn, sv⟩` when no
entry matches. -/
def upsertSub : List chr_sub_status_t → Nat → Nat → List chr_sub_status_t
  | [], conn, sv => [⟨conn, sv⟩]
  | e :: rest, conn, sv =>
    if e.conn_id = conn then ⟨conn, sv⟩ :: rest
    else e :: upsertSub rest conn sv

/-- The `subVal == 0` branch of `setSubscribe`: erase the first entry
matching `conn`, or do nothing when no entry matches. -/
def removeSub : List chr_sub_status_t → Nat → List chr_sub_status_t
  | [], _ => []
  | e :: rest, conn =>
    if e.conn_id = conn then rest
    else e :: removeSub rest conn

/-- The table update performed by `setSubscribe` for a subscription-change
event with computed value `subVal`. -/
def applySubscribe (vec : List chr_sub_status_t) (conn subVal : Nat) :
    List chr_sub_status_t :=
  if 0 < subVal then upsertSub vec conn subVal else removeSub vec conn

/-- `subVal` as computed from the event's `cur_notify` / `cur_indicate`
bits (source lines 253-259). -/
def computeSubVal (cur_notify cur_indicate : Bool) : Nat :=
  let subVal : Nat := 0
  let subVal := if cur_notify then subVal ||| NIMBLE_DESC_FLAG_NOTIFY else subVal
  if cur_indicate then subVal ||| NIMBLE_DESC_FLAG_INDICATE else subVal

/-- The confirmation-gate signal emitted by `setSubscribe` (source lines
261-264): whenever the semaphore exists it is given, with value `0` when
the new flags include indicate-enabled and with
`Status::ERROR_INDICATE_DISABLED` otherwise; `none` means no give occurs
(no semaphore). -/
def setSubscribeGate (hasSemaphore : Bool) (subVal : Nat) : Option Nat :=
  if hasSemaphore then
    some (if subVal &&& NIMBLE_DESC_FLAG_INDICATE ≠ 0 then 0
          else ERROR_INDICATE_DISABLED_val)
  else none

/-- Result of one `setSubscribe` call: the gate signal, whether the call
was abandoned at the missing-2902 check, and the resulting table (`none`
when there is no 2902 descriptor to hold one). -/
structure SetSubResult where
  gateSignal : Option Nat
  abandoned : Bool
  table : Option (List chr_sub_status_t)
deriving DecidableEq, Repr

/-- `NimBLECharacteristic::setSubscribe` (source lines 252-303): compute
`subVal`, give the semaphore when it exists, then abandon the call when the
2902 descriptor is missing, else update its subscriber table. -/
def setSubscribeModel (hasSemaphore : Bool) (dsc2902 : Option (List chr_sub_status_t))
    (conn : Nat) (cur_notify cur_indicate : Bool) : SetSubResult :=
  let subVal := computeSubVal cur_notify cur_indicate
  let g := setSubscribeGate hasSemaphore subVal
  match dsc2902 with
  | none => ⟨g, true, none⟩
  | some vec => ⟨g, false, some (applySubscribe vec conn subVal)⟩

/-! ### NotifyIndicateEngine

`NimBLECharacteristic::notify(bool is_notification)` (source lines
324-411). Per-connection transport behaviour is an oracle environment:
`mtu` is `getPeerMTU`, `indicateRc` / `notifyRc` are the immediate results
of `ble_gattc_indicate_custom` / `ble_gattc_notify_custom`, and `waitRc` is
the value returned by the confirmation semaphore's `wait()`. -/

structure NotifyEnv where
  connectedCount : Nat
  mtu : Nat → Nat
  indicateRc : Nat → Nat
  notifyRc : Nat → Nat
  waitRc : Nat → Nat

/-- What one loop iteration of `notify` does for one subscriber: the mode
in force at send time, the byte count handed to `ble_hs_mbuf_from_flat`,
whether the gate was taken and whether it was given back on an immediate
indicate failure, and the `(statusRC, rc)` pair passed to `onStatus`. -/
structure SendEvent where
  conn_id : Nat
  asNotification : Bool
  payloadLen : Nat
  gateTaken : Bool
  gateGivenOnFail : Bool
  status : Status
  rc : Nat
deriving DecidableEq, Repr

/-- The two mode-fallback rewrites applied to the carried
`is_notification` value (source lines 362-372): a notify request to a
subscriber without the notify flag becomes an indication, then an
indicate request to a subscriber without the indicate flag becomes a
notification. -/
def modeResolve (is_notification : Bool) (sub_val : Nat) : Bool :=
  let n1 := if is_notification ∧ sub_val &&& NIMBLE_DESC_FLAG_NOTIFY = 0
            then false else is_notification
  if ¬n1 ∧ sub_val &&& NIMBLE_DESC_FLAG_INDICATE = 0 then true else n1

/-- One iteration of the subscriber loop (source lines 341-408). Returns
the `is_notification` value carried into the next iteration, and the send
event (`none` when the subscriber is skipped at the `_mtu == 0` or
`sub_val == 0` checks). The byte count given to `ble_hs_mbuf_from_flat` at
line 377 is the full value length: the `length > _mtu - 3` test at line
358 only emits a log line. In the semaphore branch, the source's
`statusRC = ERROR_GATT` store at line 385 is dead: the chain at lines
390-397 assigns `statusRC` again on every path. -/
def notifyStep (env : NotifyEnv) (hasSemaphore : Bool) (valueLen : Nat)
    (is_notification : Bool) (e : chr_sub_status_t) : Bool × Option SendEvent :=
  if env.mtu e.conn_id = 0 then (is_notification, none)
  else if e.sub_val = 0 then (is_notification, none)
  else
    let n2 := modeResolve is_notification e.sub_val
    if hasSemaphore ∧ ¬n2 then
      let rc0 := env.indicateRc e.conn_id
      let rc1 := if rc0 ≠ 0 then rc0 else env.waitRc e.conn_id
      let outcome :=
        if rc1 = 0 ∨ rc1 = BLE_HS_EDONE then (Status.SUCCESS_INDICATE, 0)
        else if rc1 = BLE_HS_ETIMEOUT then (Status.ERROR_INDICATE_TIMEOUT, rc1)
        else (Status.ERROR_INDICATE_FAILURE, rc1)
      (n2, some ⟨e.conn_id, n2, valueLen, true, rc0 ≠ 0, outcome.1, outcome.2⟩)
    else
      let rc := env.notifyRc e.conn_id
      (n2, some ⟨e.conn_id, n2, valueLen, false, false,
                 if rc = 0 then Status.SUCCESS_NOTIFY else Status.ERROR_GATT, rc⟩)

/-- The subscriber loop of `notify`, threading `is_notification` across
iterations exactly as the source mutates its parameter. -/
def notifyLoop (env : NotifyEnv) (hasSemaphore : Bool) (valueLen : Nat) :
    Bool → List chr_sub_status_t → List SendEvent
  | _, [] => []
  | isNotif, e :: rest =>
    match notifyStep env hasSemaphore valueLen isNotif e with
    | (next, none) => notifyLoop env hasSemaphore valueLen next rest
    | (next, some ev) => ev :: notifyLoop env hasSemaphore valueLen next rest

/-- Configuration of the characteristic as `notify` sees it: whether the
confirmation semaphore was created (indicate property at construction),
the committed value's length, and the 2902 descriptor's subscriber table
when that descriptor exists. -/
structure CharConfig where
  hasSemaphore : Bool
  valueLen : Nat
  dsc2902 : Option (List chr_sub_status_t)
deriving Repr

/-- `NimBLECharacteristic::notify` top level (source lines 324-411): with
no connected client it returns after logging (no events). Otherwise it
looks up the 2902 descriptor and, with no null check, iterates
`p2902->m_subscribedVec` (line 341); when the descriptor is absent that is
a null-pointer dereference, embedded as `none` (no defined result). -/
def notifyModel (cfg : CharConfig) (env : NotifyEnv) (is_notification : Bool) :
    Option (List SendEvent) :=
  if env.connectedCount = 0 then some []
  else
    match cfg.dsc2902 with
    | none => none
    | some subs =>
      some (notifyLoop env cfg.hasSemaphore cfg.valueLen is_notification subs)

/-! ### Construction and accessors -/

/-- The slice of `NimBLECharacteristic` state the constructor
(source lines 46-57) fixes: `m_properties` (a `uint16_t`, kept reduced
modulo `2^16`) and whether the confirmation semaphore was allocated. -/
structure CharCtorState where
  m_properties : Nat
  hasSemaphore : Bool
deriving DecidableEq, Repr

/-- The constructor at source lines 46-57: `m_properties` stores the
`uint16_t` parameter; the semaphore is created exactly when
`properties & NIMBLE_PROPERTY::INDICATE` is nonzero. -/
def construct (properties : Nat) : CharCtorState :=
  ⟨properties % 2 ^ 16, (properties % 2 ^ 16) &&& BLE_GATT_CHR_F_INDICATE ≠ 0⟩

/-- `getProperties` (source lines 146-148) returns `m_properties` as a
`uint8_t`, truncating to the low byte. -/
def getProperties (s : CharCtorState) : Nat :=
  s.m_properties % 2 ^ 8

/-! ### Descriptor creation

`NimBLECharacteristic::createDescriptor` (source lines 86-109) and
`getDescriptorByUUID` (source lines 127-134). Descriptors are embedded as
their UUID plus a creation index standing for the allocation identity. -/

structure NimBLEDescriptor where
  uuid : Nat
  did : Nat
deriving DecidableEq, Repr

structure DescState where
  m_properties : Nat
  m_dscVec : List NimBLEDescriptor
  nextId : Nat
deriving DecidableEq, Repr

/-- `getDescriptorByUUID`: first descriptor in `m_dscVec` with the given
UUID, `nullptr` (`none`) when there is none. -/
def getDescriptorByUUID (s : DescState) (u : Nat) : Option NimBLEDescriptor :=
  s.m_dscVec.find? (fun d => d.uuid == u)

/-- `createDescriptor`: for UUID 0x2902 the characteristic must have the
notify or indicate property (else `assert(0 && ...)` aborts, embedded as
`none`); an existing 2902 descriptor is returned as-is without touching
`m_dscVec`, otherwise a fresh one is allocated and pushed back. Any other
UUID always allocates a fresh descriptor and pushes it back. -/
def createDescriptor (s : DescState) (u : Nat) : Option (NimBLEDescriptor × DescState) :=
  if u = 0x2902 then
    if s.m_properties &&& BLE_GATT_CHR_F_NOTIFY = 0 ∧
       s.m_properties &&& BLE_GATT_CHR_F_INDICATE = 0 then
      none
    else
      match getDescriptorByUUID s u with
      | some d => some (d, s)
      | none =>
        let d : NimBLEDescriptor := ⟨u, s.nextId⟩
        some (d, ⟨s.m_properties, s.m_dscVec ++ [d], s.nextId + 1⟩)
  else
    let d : NimBLEDescriptor := ⟨u, s.nextId⟩
    some (d, ⟨s.m_properties, s.m_dscVec ++ [d], s.nextId + 1⟩)

/-- The predicate selecting a 2902 descriptor. -/
def is2902 (d : NimBLEDescriptor) : Bool :=
  d.uuid == 0x2902

/-- The number of 2902 descriptors registered on the characteristic. -/
def count2902 (s : DescState) : Nat :=
  (s.m_dscVec.filter is2902).length

/-! ### Observation helpers used by the statements -/

/-- The connection identifiers of a subscriber table, in order. -/
def connIds (vec : List chr_sub_status_t) : List Nat :=
  vec.map chr_sub_status_t.conn_id

/-- Entry test: entry belongs to connection `conn`. -/
def connEq (conn : Nat) (e : chr_sub_status_t) : Bool :=
  e.conn_id == conn

/-- Entry test: entry belongs to a connection other than `conn`. -/
def connNe (conn : Nat) (e : chr_sub_status_t) : Bool :=
  !(e.conn_id == conn)

/-- The sub-table of entries for connection `conn`. -/
def entriesFor (conn : Nat) (vec : List chr_sub_status_t) : List chr_sub_status_t :=
  vec.filter (connEq conn)

/-- The sub-table of entries for connections other than `conn`. -/
def entriesNotFor (conn : Nat) (vec : List chr_sub_status_t) : List chr_sub_status_t :=
  vec.filter (connNe conn)

/-! ### Concrete transport environments used for evaluation -/

/-- One connected peer, MTU 23 everywhere, every transport call succeeds
and every confirmation wait resolves with 0. -/
def envOk : NotifyEnv :=
  ⟨1, fun _ => 23, fun _ => 0, fun _ => 0, fun _ => 0⟩

/-- One connected peer, MTU 23 everywhere, `ble_gattc_indicate_custom`
fails immediately with `BLE_HS_ENOMEM` (6). -/
def envIndFail : NotifyEnv :=
  ⟨1, fun _ => 23, fun _ => 6, fun _ => 0, fun _ => 0⟩

end NimBLEChar

open NimBLEChar

/-! ## Theorems -/

/-- Claim C1: the claim states the payload handed to the transport send
call has length `min(L, M-3)`; evaluating the embedded loop at the failing
input (value length 100, one notify-enabled subscriber at MTU 23) shows
the payload handed to `ble_hs_mbuf_from_flat` has the full length 100,
not `min(100, 23-3) = 20`: the `length > _mtu - 3` check at source line
358 only logs the announced truncation and never performs it. -/
theorem C1_no_truncation_eval :
    notifyLoop envOk false 100 true [⟨7, 1⟩] =
      [⟨7, true, 100, false, false, Status.SUCCESS_NOTIFY, 0⟩] ∧
    (100 : Nat) ≠ min 100 (23 - 3) :=
  ⟨rfl, by decide⟩

/-- Claim C2: the claim states an immediate indicate send failure reports
status `ERROR_GATT`. Evaluating the embedded loop at the failing input
(indicate to a subscriber with indicate enabled,
`ble_gattc_indicate_custom` returning 6) shows the gate is indeed given
back, but the status delivered to `onStatus` is
`ERROR_INDICATE_FAILURE`: the `statusRC = ERROR_GATT` store at source
line 385 is dead, unconditionally overwritten by the chain at lines
390-397. -/
theorem C2_dead_error_gatt_eval :
    notifyLoop envIndFail true 5 false [⟨3, 2⟩] =
      [⟨3, false, 5, true, true, Status.ERROR_INDICATE_FAILURE, 6⟩] ∧
    Status.ERROR_INDICATE_FAILURE ≠ Status.ERROR_GATT :=
  ⟨rfl, by decide⟩

/-- Claim C3 counterexample: with a notify request and subscribers
`[⟨1, indicate-only⟩, ⟨2, notify+indicate⟩]`, the second subscriber's
flags include the notify bit, yet it is delivered an indication
(`asNotification = false`): the mode switch made for the first subscriber
persists in the loop-carried `is_notification` parameter, so the mode is
not a function of only the original request and the subscriber's own
flags. -/
theorem C3_mode_leak_cex :
    notifyLoop envOk true 4 true [⟨1, 2⟩, ⟨2, 3⟩] =
      [⟨1, false, 4, true, false, Status.SUCCESS_INDICATE, 0⟩,
       ⟨2, false, 4, true, false, Status.SUCCESS_INDICATE, 0⟩] ∧
    (3 : Nat) &&& NIMBLE_DESC_FLAG_NOTIFY ≠ 0 :=
  ⟨rfl, by decide⟩

/-- Claim C3 (amended): for a subscriber that is not skipped, the mode
used is `modeResolve` of the mode carried over from the previous
processed subscriber (initially the caller's requested mode) and the
subscriber's own flags, and that resolved mode is carried into the next
iteration; the fallback rewrites are: a carried notify against a
subscriber without the notify flag but with the indicate flag becomes an
indication, a carried indicate against a subscriber without the indicate
flag becomes a notification, and a carried mode the subscriber's flags
permit is kept. -/
theorem C3_mode_carry (env : NotifyEnv) (hasSem : Bool) (len : Nat)
    (isNotif : Bool) (e : chr_sub_status_t)
    (h1 : env.mtu e.conn_id ≠ 0) (h2 : e.sub_val ≠ 0) :
    (notifyStep env hasSem len isNotif e).1 = modeResolve isNotif e.sub_val ∧
    (notifyStep env hasSem len isNotif e).2.map SendEvent.asNotification
      = some (modeResolve isNotif e.sub_val) ∧
    (isNotif = true → e.sub_val &&& NIMBLE_DESC_FLAG_NOTIFY = 0 →
      e.sub_val &&& NIMBLE_DESC_FLAG_INDICATE ≠ 0 →
      modeResolve isNotif e.sub_val = false) ∧
    (isNotif = false → e.sub_val &&& NIMBLE_DESC_FLAG_INDICATE = 0 →
      modeResolve isNotif e.sub_val = true) ∧
    (e.sub_val &&&
        (if isNotif then NIMBLE_DESC_FLAG_NOTIFY else NIMBLE_DESC_FLAG_INDICATE) ≠ 0 →
      modeResolve isNotif e.sub_val = isNotif) := by
  refine ⟨?_, ?_, ?_, ?_, ?_⟩
  · unfold notifyStep
    rw [if_neg h1, if_neg h2]
    dsimp only
    split <;> rfl
  · unfold notifyStep
    rw [if_neg h1, if_neg h2]
    dsimp only
    split <;> rfl
  · intro hn hnot hind
    subst hn
    simp [modeResolve, hnot, hind]
  · intro hn hind
    subst hn
    simp [modeResolve, hind]
  · intro hperm
    cases isNotif with
    | false => simp at hperm; simp [modeResolve, hperm]
    | true => simp at hperm; simp [modeResolve, hperm]

/-- Claim C3 amended, witness at a concrete input. -/
theorem C3_mode_carry_witness :
    (notifyStep envOk true 4 true ⟨1, 2⟩).1 = modeResolve true 2 ∧
    (notifyStep envOk true 4 true ⟨1, 2⟩).2.map SendEvent.asNotification
      = some (modeResolve true 2) ∧
    (true = true → (2 : Nat) &&& NIMBLE_DESC_FLAG_NOTIFY = 0 →
      (2 : Nat) &&& NIMBLE_DESC_FLAG_INDICATE ≠ 0 → modeResolve true 2 = false) ∧
    (true = false → (2 : Nat) &&& NIMBLE_DESC_FLAG_INDICATE = 0 →
      modeResolve true 2 = true) ∧
    ((2 : Nat) &&&
        (if true then NIMBLE_DESC_FLAG_NOTIFY else NIMBLE_DESC_FLAG_INDICATE) ≠ 0 →
      modeResolve true 2 = true) :=
  C3_mode_carry envOk true 4 true ⟨1, 2⟩ (by decide) (by decide)

/-- Claim C4 counterexample: a WRITE fragment chain whose second fragment
has 513 bytes (beyond `BLE_ATT_ATTR_MAX_LEN = 512`) is not rejected: the
dispatcher returns 0, appends and commits the oversized bytes, and fires
the write callback, because only the head fragment's length is checked at
source line 220 and the `while` loop at lines 228-231 appends the rest
unchecked. -/
theorem C4_unchecked_tail_fragment_cex :
    BLE_ATT_ATTR_MAX_LEN < (List.replicate 513 0).length ∧
    handleWriteChr ⟨[], []⟩ [] [List.replicate 513 0] =
      ⟨0, ⟨List.replicate 513 0, []⟩, true⟩ :=
  ⟨by simp only [List.length_replicate, BLE_ATT_ATTR_MAX_LEN]; decide, rfl⟩

/-- Claim C4 (amended): when the FIRST fragment of a WRITE access event
exceeds `BLE_ATT_ATTR_MAX_LEN`, the dispatcher returns
`BLE_ATT_ERR_INVALID_ATTR_VALUE_LEN`, appends nothing (the whole value
buffer, committed value included, is unchanged) and does not invoke the
write callback; fragments after the first are not length-checked. -/
theorem C4_first_fragment_checked (v : ValueBuffer) (head : List Nat)
    (rest : List (List Nat)) (h : BLE_ATT_ATTR_MAX_LEN < head.length) :
    handleWriteChr v head rest =
      ⟨BLE_ATT_ERR_INVALID_ATTR_VALUE_LEN, v, false⟩ := by
  unfold handleWriteChr
  rw [if_pos h]

/-- Claim C4 amended, witness at a concrete input. -/
theorem C4_first_fragment_checked_witness :
    handleWriteChr ⟨[1], []⟩ (List.replicate 513 0) [] =
      ⟨BLE_ATT_ERR_INVALID_ATTR_VALUE_LEN, ⟨[1], []⟩, false⟩ :=
  C4_first_fragment_checked ⟨[1], []⟩ (List.replicate 513 0) []
    (by simp only [List.length_replicate, BLE_ATT_ATTR_MAX_LEN]; decide)

/-- Claim C5 counterexample: a subscription event whose new flags DO
include indicate-enabled still releases the confirmation gate — the
`give` at source lines 261-264 is unconditional whenever the semaphore
exists, and for an indicate-enabled event it releases the gate with the
success signal 0 rather than leaving a blocked indication wait alone. -/
theorem C5_indicate_enabled_releases_gate_cex :
    computeSubVal false true &&& NIMBLE_DESC_FLAG_INDICATE ≠ 0 ∧
    setSubscribeGate true (computeSubVal false true) = some 0 ∧
    setSubscribeGate true (computeSubVal false true) ≠ none := by
  decide

/-- Claim C5 (amended): every subscription-change event processed while
the confirmation gate exists releases the gate: with the nonzero
"indicate disabled" signal when the event's new flags do not include
indicate-enabled, and with the success signal 0 when they do; with no
gate there is no give. -/
theorem C5_gate_release (cur_notify cur_indicate : Bool) :
    setSubscribeGate true (computeSubVal cur_notify cur_indicate)
      = some (if cur_indicate then 0 else ERROR_INDICATE_DISABLED_val) ∧
    ERROR_INDICATE_DISABLED_val ≠ 0 ∧
    setSubscribeGate false (computeSubVal cur_notify cur_indicate) = none := by
  cases cur_notify <;> cases cur_indicate <;> decide

/-- Claim C6: the claim states a notify/indicate call with no 2902
descriptor is abandoned after logging, with no undefined behaviour.
Evaluating the embedding at the failing input (a connected peer, no 2902
descriptor) shows `notify` reaches the loop over
`p2902->m_subscribedVec` with `p2902 == nullptr` (source line 341 has no
null check), a null-pointer dereference embedded as `none`; only
`setSubscribe` (source lines 269-274) performs the check and abandons
cleanly. -/
theorem C6_missing_2902_eval :
    notifyModel ⟨true, 5, none⟩ envOk true = none ∧
    (setSubscribeModel true none 1 true false).abandoned = true ∧
    (setSubscribeModel true none 1 true false).table = none :=
  ⟨rfl, rfl, rfl⟩

/-- Claim C8: `setValue` with data longer than `BLE_ATT_ATTR_MAX_LEN`
leaves the whole value buffer (committed value and its length included)
exactly as before and returns without touching it; with data of length at
most the maximum it replaces the committed value with exactly those
bytes. -/
theorem C8_setValue_bounds (b : ValueBuffer) (data : List Nat) :
    (BLE_ATT_ATTR_MAX_LEN < data.length → setValue b data = b) ∧
    (data.length ≤ BLE_ATT_ATTR_MAX_LEN →
      (setValue b data).committed = data) := by
  constructor
  · intro h
    unfold setValue
    rw [if_pos h]
  · intro h
    unfold setValue
    rw [if_neg (not_lt.mpr h)]
    rfl

/-- Claim C8, witness: the oversized branch at one concrete input and the
in-bounds branch at another. -/
theorem C8_setValue_bounds_witness :
    setValue ⟨[9], []⟩ (List.replicate 513 0) = ⟨[9], []⟩ ∧
    (setValue ⟨[9], []⟩ [1, 2]).committed = [1, 2] :=
  ⟨(C8_setValue_bounds ⟨[9], []⟩ (List.replicate 513 0)).1
      (by simp only [List.length_replicate, BLE_ATT_ATTR_MAX_LEN]; decide),
   (C8_setValue_bounds ⟨[9], []⟩ [1, 2]).2 (by decide)⟩

/-- Claim C9: the characteristic is constructed with a 16-bit properties
bitset but `getProperties` returns it as an 8-bit value: for every
construction argument `p`, `getProperties` yields `p % 2^8`, silently
dropping all property bits above the low byte. -/
theorem C9_properties_truncated (p : Nat) :
    getProperties (construct p) = p % 2 ^ 8 ∧ getProperties (construct p) < 2 ^ 8 := by
  constructor
  · unfold getProperties construct
    exact Nat.mod_mod_of_dvd p (by norm_num)
  · exact Nat.mod_lt _ (by norm_num)

/-! ### Subscription-table lemmas -/

theorem connIds_cons (e : chr_sub_status_t) (rest : List chr_sub_status_t) :
    connIds (e :: rest) = e.conn_id :: connIds rest := rfl

theorem entriesFor_cons (conn : Nat) (e : chr_sub_status_t) (rest : List chr_sub_status_t) :
    entriesFor conn (e :: rest) =
      if e.conn_id = conn then e :: entriesFor conn rest else entriesFor conn rest := by
  simp [entriesFor, connEq, List.filter_cons]

theorem entriesNotFor_cons (conn : Nat) (e : chr_sub_status_t) (rest : List chr_sub_status_t) :
    entriesNotFor conn (e :: rest) =
      if e.conn_id = conn then entriesNotFor conn rest else e :: entriesNotFor conn rest := by
  by_cases hc : e.conn_id = conn <;> simp [entriesNotFor, connNe, List.filter_cons, hc]

theorem entriesFor_eq_nil_of_not_mem {conn : Nat} {vec : List chr_sub_status_t}
    (h : conn ∉ connIds vec) : entriesFor conn vec = [] := by
  induction vec with
  | nil => rfl
  | cons e rest ih =>
    rw [connIds_cons, List.mem_cons] at h
    push_neg at h
    rw [entriesFor_cons, if_neg (fun hc => h.1 hc.symm)]
    exact ih h.2

theorem removeSub_not_mem {vec : List chr_sub_status_t} {conn : Nat}
    (h : conn ∉ connIds vec) : removeSub vec conn = vec := by
  induction vec with
  | nil => rfl
  | cons e rest ih =>
    rw [connIds_cons, List.mem_cons] at h
    push_neg at h
    simp only [removeSub]
    rw [if_neg (fun hc => h.1 hc.symm), ih h.2]

theorem removeSub_sublist (vec : List chr_sub_status_t) (conn : Nat) :
    (removeSub vec conn).Sublist vec := by
  induction vec with
  | nil => simp [removeSub]
  | cons e rest ih =>
    simp only [removeSub]
    split
    · exact List.sublist_cons_self e rest
    · exact List.Sublist.cons₂ e ih

theorem upsertSub_connIds (vec : List chr_sub_status_t) (conn sv : Nat) :
    connIds (upsertSub vec conn sv) =
      if conn ∈ connIds vec then connIds vec else connIds vec ++ [conn] := by
  induction vec with
  | nil => simp [upsertSub, connIds]
  | cons e rest ih =>
    simp only [upsertSub]
    by_cases hc : e.conn_id = conn
    · rw [if_pos hc, connIds_cons, connIds_cons,
        if_pos (by rw [List.mem_cons]; exact Or.inl hc.symm), hc]
    · rw [if_neg hc, connIds_cons, connIds_cons, ih]
      by_cases hm : conn ∈ connIds rest
      · rw [if_pos hm, if_pos (by rw [List.mem_cons]; exact Or.inr hm)]
      · rw [if_neg hm, if_neg (by
          rw [List.mem_cons]
          push_neg
          exact ⟨fun hh => hc hh.symm, hm⟩), List.cons_append]

theorem upsertSub_nodup {vec : List chr_sub_status_t} (conn sv : Nat)
    (h : (connIds vec).Nodup) : (connIds (upsertSub vec conn sv)).Nodup := by
  rw [upsertSub_connIds]
  split
  · exact h
  · rename_i hm
    rw [List.nodup_append]
    refine ⟨h, List.nodup_singleton conn, ?_⟩
    intro x hx hx1
    rw [List.mem_singleton] at hx1
    exact hm (hx1 ▸ hx)

theorem upsertSub_entriesFor (vec : List chr_sub_status_t) (conn sv : Nat)
    (h : (connIds vec).Nodup) :
    entriesFor conn (upsertSub vec conn sv) = [⟨conn, sv⟩] := by
  induction vec with
  | nil => simp [upsertSub, entriesFor, connEq]
  | cons e rest ih =>
    rw [connIds_cons, List.nodup_cons] at h
    obtain ⟨hnm, hrest⟩ := h
    simp only [upsertSub]
    by_cases hc : e.conn_id = conn
    · rw [if_pos hc, entriesFor_cons, if_pos rfl,
        entriesFor_eq_nil_of_not_mem (hc ▸ hnm)]
    · rw [if_neg hc, entriesFor_cons, if_neg hc]
      exact ih hrest

theorem upsertSub_entriesNotFor (vec : List chr_sub_status_t) (conn sv : Nat) :
    entriesNotFor conn (upsertSub vec conn sv) = entriesNotFor conn vec := by
  induction vec with
  | nil => simp [upsertSub, entriesNotFor, connNe]
  | cons e rest ih =>
    simp only [upsertSub]
    by_cases hc : e.conn_id = conn
    · rw [if_pos hc, entriesNotFor_cons, if_pos rfl, entriesNotFor_cons, if_pos hc]
    · rw [if_neg hc, entriesNotFor_cons, if_neg hc, entriesNotFor_cons, if_neg hc, ih]

theorem removeSub_entriesFor (vec : List chr_sub_status_t) (conn : Nat)
    (h : (connIds vec).Nodup) :
    entriesFor conn (removeSub vec conn) = [] := by
  induction vec with
  | nil => rfl
  | cons e rest ih =>
    rw [connIds_cons, List.nodup_cons] at h
    obtain ⟨hnm, hrest⟩ := h
    simp only [removeSub]
    by_cases hc : e.conn_id = conn
    · rw [if_pos hc]
      exact entriesFor_eq_nil_of_not_mem (hc ▸ hnm)
    · rw [if_neg hc, entriesFor_cons, if_neg hc]
      exact ih hrest

theorem removeSub_entriesNotFor (vec : List chr_sub_status_t) (conn : Nat) :
    entriesNotFor conn (removeSub vec conn) = entriesNotFor conn vec := by
  induction vec with
  | nil => rfl
  | cons e rest ih =>
    simp only [removeSub]
    by_cases hc : e.conn_id = conn
    · rw [if_pos hc, entriesNotFor_cons, if_pos hc]
    · rw [if_neg hc, entriesNotFor_cons, if_neg hc, entriesNotFor_cons, if_neg hc, ih]

theorem upsertSub_idem (vec : List chr_sub_status_t) (conn sv : Nat) :
    upsertSub (upsertSub vec conn sv) conn sv = upsertSub vec conn sv := by
  induction vec with
  | nil => simp [upsertSub]
  | cons e rest ih =>
    simp only [upsertSub]
    by_cases hc : e.conn_id = conn
    · rw [if_pos hc]
      simp [upsertSub]
    · rw [if_neg hc]
      simp only [upsertSub]
      rw [if_neg hc, ih]

theorem removeSub_idem (vec : List chr_sub_status_t) (conn : Nat)
    (h : (connIds vec).Nodup) :
    removeSub (removeSub vec conn) conn = removeSub vec conn := by
  induction vec with
  | nil => rfl
  | cons e rest ih =>
    rw [connIds_cons, List.nodup_cons] at h
    obtain ⟨hnm, hrest⟩ := h
    simp only [removeSub]
    by_cases hc : e.conn_id = conn
    · rw [if_pos hc]
      exact removeSub_not_mem (hc ▸ hnm)
    · rw [if_neg hc]
      simp only [removeSub]
      rw [if_neg hc, ih hrest]

/-- Claim C7: for every subscription-change event on a table whose
connection ids are unique: when `subVal > 0` the resulting table has
exactly one entry for that connection id, carrying `subVal`, inserted if
absent and updated in place if present, with all other connections'
entries untouched; when `subVal = 0` the entry is removed if present and
nothing changes if absent; applying the same event twice gives the same
table as applying it once; and connection-id uniqueness is preserved. -/
theorem C7_subscription_table (vec : List chr_sub_status_t) (conn subVal : Nat)
    (h : (connIds vec).Nodup) :
    (0 < subVal →
      entriesFor conn (applySubscribe vec conn subVal) = [⟨conn, subVal⟩]) ∧
    entriesNotFor conn (applySubscribe vec conn subVal) = entriesNotFor conn vec ∧
    (subVal = 0 → entriesFor conn (applySubscribe vec conn subVal) = []) ∧
    (subVal = 0 → conn ∉ connIds vec → applySubscribe vec conn subVal = vec) ∧
    applySubscribe (applySubscribe vec conn subVal) conn subVal
      = applySubscribe vec conn subVal ∧
    (connIds (applySubscribe vec conn subVal)).Nodup := by
  rcases Nat.eq_zero_or_pos subVal with h0 | h0
  · subst h0
    simp only [applySubscribe, lt_irrefl, if_neg (lt_irrefl 0)]
    refine ⟨fun hh => hh.elim, removeSub_entriesNotFor vec conn,
      fun _ => removeSub_entriesFor vec conn h, fun _ hnm => removeSub_not_mem hnm,
      removeSub_idem vec conn h, ?_⟩
    exact List.Nodup.sublist ((removeSub_sublist vec conn).map chr_sub_status_t.conn_id) h
  · simp only [applySubscribe, if_pos h0]
    refine ⟨fun _ => upsertSub_entriesFor vec conn subVal h,
      upsertSub_entriesNotFor vec conn subVal,
      fun hz => absurd (hz ▸ h0) (lt_irrefl 0),
      fun hz => absurd (hz ▸ h0) (lt_irrefl 0),
      upsertSub_idem vec conn subVal,
      upsertSub_nodup conn subVal h⟩

/-- Claim C7, witness at a concrete input. -/
theorem C7_subscription_table_witness :
    entriesFor 2 (applySubscribe [⟨1, 1⟩, ⟨2, 3⟩] 2 2) = [⟨2, 2⟩] ∧
    entriesNotFor 2 (applySubscribe [⟨1, 1⟩, ⟨2, 3⟩] 2 2) = entriesNotFor 2 [⟨1, 1⟩, ⟨2, 3⟩] ∧
    applySubscribe (applySubscribe [⟨1, 1⟩, ⟨2, 3⟩] 2 2) 2 2
      = applySubscribe [⟨1, 1⟩, ⟨2, 3⟩] 2 2 ∧
    (connIds (applySubscribe [⟨1, 1⟩, ⟨2, 3⟩] 2 2)).Nodup := by
  obtain ⟨h1, h2, _, _, h5, h6⟩ :=
    C7_subscription_table [⟨1, 1⟩, ⟨2, 3⟩] 2 2 (by decide)
  exact ⟨h1 (by decide), h2, h5, h6⟩

/-! ### Descriptor-creation lemmas -/

/-- Unfolding of the 2902 predicate. -/
theorem is2902_def : is2902 = fun x => x.uuid == (0x2902 : Nat) := rfl

/-- Claim C10: `createDescriptor` with UUID 0x2902 is idempotent — given
the notify or indicate property (otherwise the source asserts), a call
that returns `(d, s1)` yields a descriptor with UUID 0x2902 registered in
the list, the list then holds exactly one 2902 descriptor, a first call
on a 2902-free list appends exactly the new descriptor, and every later
call returns the same descriptor and the same state without adding
another entry. -/
theorem C10_create2902_idem (s : DescState) (d : NimBLEDescriptor) (s1 : DescState)
    (hp : ¬(s.m_properties &&& BLE_GATT_CHR_F_NOTIFY = 0 ∧
            s.m_properties &&& BLE_GATT_CHR_F_INDICATE = 0))
    (hcount : count2902 s ≤ 1)
    (hcall : createDescriptor s 0x2902 = some (d, s1)) :
    d.uuid = 0x2902 ∧ count2902 s1 = 1 ∧ d ∈ s1.m_dscVec ∧
    (count2902 s = 0 → s1.m_dscVec = s.m_dscVec ++ [d]) ∧
    createDescriptor s1 0x2902 = some (d, s1) := by
  unfold createDescriptor at hcall
  rw [if_pos rfl, if_neg hp] at hcall
  unfold getDescriptorByUUID at hcall
  cases hfind : List.find? (fun x => x.uuid == (0x2902 : Nat)) s.m_dscVec with
  | none =>
    rw [hfind] at hcall
    simp only [Option.some.injEq, Prod.mk.injEq] at hcall
    obtain ⟨hd, hs⟩ := hcall
    subst hd
    subst hs
    have hfilter : s.m_dscVec.filter (fun x => x.uuid == (0x2902 : Nat)) = [] := by
      rw [List.filter_eq_nil_iff]
      exact List.find?_eq_none.mp hfind
    refine ⟨rfl, ?_, ?_, fun _ => rfl, ?_⟩
    · unfold count2902
      rw [is2902_def]
      dsimp only
      rw [List.filter_append, hfilter]
      simp
    · simp
    · unfold createDescriptor
      rw [if_pos rfl, if_neg (by dsimp only; exact hp)]
      unfold getDescriptorByUUID
      dsimp only
      rw [List.find?_append, hfind]
      simp [List.find?]
  | some d0 =>
    rw [hfind] at hcall
    simp only [Option.some.injEq, Prod.mk.injEq] at hcall
    obtain ⟨hd, hs⟩ := hcall
    subst hd
    subst hs
    have hpd : (d0.uuid == (0x2902 : Nat)) = true :=
      List.find?_some (p := fun x => x.uuid == (0x2902 : Nat)) (a := d0) hfind
    have hmem : d0 ∈ s.m_dscVec :=
      List.mem_of_find?_eq_some (p := fun x => x.uuid == (0x2902 : Nat)) hfind
    have hone : count2902 s = 1 := by
      have hmf : d0 ∈ s.m_dscVec.filter is2902 :=
        List.mem_filter.mpr ⟨hmem, hpd⟩
      have hpos : 0 < count2902 s :=
        List.length_pos.mpr (List.ne_nil_of_mem hmf)
      omega
    refine ⟨beq_iff_eq.mp hpd, hone, hmem, fun h0 => absurd (h0 ▸ hone) (by omega), ?_⟩
    unfold createDescriptor
    rw [if_pos rfl, if_neg hp]
    unfold getDescriptorByUUID
    rw [hfind]

/-- Claim C10, witness at a concrete input. -/
theorem C10_create2902_idem_witness :
    (⟨0x2902, 0⟩ : NimBLEDescriptor).uuid = 0x2902 ∧
    count2902 ⟨48, [⟨0x2902, 0⟩], 1⟩ = 1 ∧
    (⟨0x2902, 0⟩ : NimBLEDescriptor) ∈ (⟨48, [⟨0x2902, 0⟩], 1⟩ : DescState).m_dscVec ∧
    (⟨48, [⟨0x2902, 0⟩], 1⟩ : DescState).m_dscVec
      = (⟨48, [], 0⟩ : DescState).m_dscVec ++ [⟨0x2902, 0⟩] ∧
    createDescriptor ⟨48, [⟨0x2902, 0⟩], 1⟩ 0x2902
      = some (⟨0x2902, 0⟩, ⟨48, [⟨0x2902, 0⟩], 1⟩) := by
  obtain ⟨h1, h2, h3, h4, h5⟩ :=
    C10_create2902_idem ⟨48, [], 0⟩ ⟨0x2902, 0⟩ ⟨48, [⟨0x2902, 0⟩], 1⟩
      (by decide) (by decide) rfl
  exact ⟨h1, h2, h3, h4 (by decide), h5⟩
